import Mathlib

/-!
Verification of the SelfHostedIAM core against its specification.

This file shallowly embeds the Python modules `helper/finite_state_machine.py`,
`helper/script_runner.py`, `helper/base_messenger.py`, `helper/rabbitmq_connector.py`,
`registry/service_registry.py` and `tpm/tpm_message_handler.py` as pure Lean
functions, and proves (or refutes) the specification's claims about them.

Modelling conventions:
* Python dictionaries with heterogeneous values are association lists over `PyVal`.
* The filesystem is a function from path strings to a `FileView` (absent,
  existing-but-unreadable, or readable content as a byte list); `os.path.abspath`
  is taken to be the identity (paths are treated as already canonical).
* SHA-256 (`hashlib.sha256(...).hexdigest()`) is an abstract parameter
  `hashFn : List Nat → String`; nothing about it is assumed unless stated.
* `subprocess.run` is an oracle `run : String → RunRes`; `str(CalledProcessError)`
  is an abstract parameter `cpeStr`.
* Effects (published messages, channel operations, spawned processes) are
  reified as values returned alongside results.
-/

namespace SelfHostedIAM

/-- Python values as they occur in the dictionaries of this code base. -/
inductive PyVal where
  | str (s : String)
  | bool (b : Bool)
  | int (n : Int)
  | list (l : List String)
  | none
deriving DecidableEq

/-- A Python dictionary with string keys, as an association list. -/
def PyDict := List (String × PyVal)

instance : DecidableEq PyDict := by
  unfold PyDict
  infer_instance

/-! ## helper/finite_state_machine.py -/

/-- The `State` enum of `helper/finite_state_machine.py`. -/
inductive FSMState where
  | idle
  | processing
  | completed
  | failed
deriving DecidableEq

/-- The `.value` attribute of each `State` member. -/
def FSMState.value : FSMState → String
  | .idle => "idle"
  | .processing => "processing"
  | .completed => "completed"
  | .failed => "failed"

/-- The `_transitions` dictionary: `self._transitions.get(self._state, set())`.
`COMPLETED` is not a key of the dictionary, so its entry is the empty set. -/
def transitionsOf : FSMState → List FSMState
  | .idle => [.processing]
  | .processing => [.completed, .failed]
  | .failed => [.idle]
  | .completed => []

/-- The mutable state of a `BaseStateMachine`: `_state` and `current_context`. -/
structure Machine where
  state : FSMState
  current_context : Option PyDict
deriving DecidableEq

/-- `BaseStateMachine.transition(new_state, context)`: returns the boolean result
and the machine afterwards. `context or {}` stores the given context, defaulting
`None` (and the empty dictionary) to the empty dictionary. -/
def Machine.transition (m : Machine) (newState : FSMState) (context : Option PyDict) :
    Bool × Machine :=
  if newState ∈ transitionsOf m.state then
    (true, { state := newState, current_context := some (context.getD []) })
  else
    (false, m)

/-- `BaseStateMachine.reset()`: unconditionally forces `IDLE` and clears the context. -/
def Machine.reset (_ : Machine) : Machine :=
  { state := .idle, current_context := Option.none }

/-! ## helper/script_runner.py -/

/-- What the filesystem holds at a path: no file, a file that exists but whose
open/read raises, or a readable file with its byte content. -/
inductive FileView where
  | absent
  | unreadable
  | readable (content : List Nat)

/-- The filesystem, as a map from path strings to file views. -/
def FS := String → FileView

/-- `ScriptRunner._calculate_script_hash`: reads the file and hashes it, returning
`none` when the read raises (the Python code returns `None` then). `hashFn` stands
for `hashlib.sha256(file_content).hexdigest()`. -/
def calculate_script_hash (hashFn : List Nat → String) (fs : FS) (scriptPath : String) :
    Option String :=
  match fs scriptPath with
  | .readable content => some (hashFn content)
  | _ => Option.none

/-- The mutable state of a `ScriptRunner`: `allowed_scripts` (name → absolute path)
and `script_hashes` (name → hex digest), both insertion-ordered dictionaries. -/
structure RunnerState where
  allowed_scripts : List (String × String)
  script_hashes : List (String × String)
deriving DecidableEq

/-- `ScriptRunner.register_script(script_name, script_path)`: rejects duplicate
names and missing files; otherwise records the path and, when no hash is already
stored for the name, stores the computed hash (skipping storage when hashing
fails). Returns the boolean result with the state afterwards. -/
def register_script (hashFn : List Nat → String) (fs : FS) (st : RunnerState)
    (scriptName scriptPath : String) : Bool × RunnerState :=
  if (st.allowed_scripts.lookup scriptName).isSome then
    (false, st)
  else
    match fs scriptPath with
    | .absent => (false, st)
    | _ =>
      let st1 : RunnerState :=
        { st with allowed_scripts := st.allowed_scripts ++ [(scriptName, scriptPath)] }
      if (st1.script_hashes.lookup scriptName).isSome then
        (true, st1)
      else
        match calculate_script_hash hashFn fs scriptPath with
        | some h => (true, { st1 with script_hashes := st1.script_hashes ++ [(scriptName, h)] })
        | Option.none => (true, st1)

/-- The `ScriptRunner.__init__` constructor: starts from the caller-supplied
`script_hashes` (defaulting to empty) and registers every entry of `script_paths`
in order. -/
def mkScriptRunner (hashFn : List Nat → String) (fs : FS)
    (scriptPaths scriptHashes : List (String × String)) : RunnerState :=
  scriptPaths.foldl
    (fun st p => (register_script hashFn fs st p.1 p.2).2)
    { allowed_scripts := [], script_hashes := scriptHashes }

/-- `ScriptRunner.verify_script_integrity(script_name)`: `false` for unknown names,
`true` when no hash is stored, otherwise compares the recomputed hash (which is
`None` when the file is unreadable, and then never equal) with the stored one. -/
def verify_script_integrity (hashFn : List Nat → String) (fs : FS) (st : RunnerState)
    (scriptName : String) : Bool :=
  match st.allowed_scripts.lookup scriptName with
  | Option.none => false
  | some scriptPath =>
    match st.script_hashes.lookup scriptName with
    | Option.none => true
    | some expected =>
      decide (calculate_script_hash hashFn fs scriptPath = some expected)

/-- The arguments of the one `subprocess.run` call in `ScriptRunner.execute`. -/
structure SpawnCall where
  argv : List String
  capture_output : Bool
  text : Bool
  check : Bool
  timeout : Option Nat
deriving DecidableEq

/-- The behaviour of `subprocess.run` on a given invocation: either the process
completes with an exit code and captured output, or the call raises an exception
that is not a `CalledProcessError` (e.g. `OSError`), carrying `str(e)`. -/
inductive RunRes where
  | completed (returncode : Int) (stdout stderr : String)
  | failed (msg : String)

/-- The result dictionary of `ScriptRunner.execute`; a field is `none` exactly
when the corresponding key is absent from the Python dictionary. -/
structure ExecResult where
  success : Bool
  output : Option String := Option.none
  error : Option String := Option.none
  command : Option String := Option.none
  args : Option (List String) := Option.none
  returncode : Option Int := Option.none
deriving DecidableEq

/-- What one call of `ScriptRunner.execute` produced: the returned dictionary and
the `subprocess.run` invocation, `none` when no process was spawned. -/
structure ExecOutcome where
  result : ExecResult
  spawned : Option SpawnCall
deriving DecidableEq

/-- The ambient Python behaviours `ScriptRunner.execute` depends on: the hash
function, the subprocess oracle (keyed by the executed path), and the rendering
`str(e)` of a `CalledProcessError` from its command path and return code. -/
structure PyEnv where
  hashFn : List Nat → String
  run : String → RunRes
  cpeStr : String → Int → String

/-- `ScriptRunner.execute(script_name, args)`: refuses unregistered names and
integrity failures without spawning; otherwise invokes `subprocess.run([script_path],
capture_output=True, text=True, check=True)` — with no timeout argument and with
the caller's `args` ignored — and maps the completed/raised outcomes to result
dictionaries exactly as the three Python branches do (`check=True` turns a
nonzero exit code into a `CalledProcessError`, whose handler uses
`e.stderr or str(e)`). -/
def execute (env : PyEnv) (fs : FS) (st : RunnerState)
    (scriptName : String) (_args : List String) : ExecOutcome :=
  match st.allowed_scripts.lookup scriptName with
  | Option.none =>
    { result := { success := false, error := some "Unauthorized script" },
      spawned := Option.none }
  | some scriptPath =>
    if verify_script_integrity env.hashFn fs st scriptName then
      let call : SpawnCall :=
        { argv := [scriptPath], capture_output := true, text := true, check := true,
          timeout := Option.none }
      match env.run scriptPath with
      | .completed rc out err =>
        if rc = 0 then
          let r : ExecResult :=
            { success := true, output := some out, error := some err,
              command := some scriptName, args := some [] }
          { result := r, spawned := some call }
        else
          let r : ExecResult :=
            { success := false, output := some out,
              error := some (if err = "" then env.cpeStr scriptPath rc else err),
              command := some scriptName, args := some [], returncode := some rc }
          { result := r, spawned := some call }
      | .failed msg =>
        let r : ExecResult :=
          { success := false, error := some msg,
            command := some scriptName, args := some [] }
        { result := r, spawned := some call }
    else
      { result := { success := false, error := some "Script integrity check failed" },
        spawned := Option.none }

/-- Substring containment on strings, used to state "error containing ...". -/
def strContains (s sub : String) : Prop :=
  ∃ a b, s = a ++ sub ++ b

/-! ## helper/base_messenger.py -/

/-- How one delivered message ends at the broker: `basic_reject(requeue)`,
`basic_ack`, or `basic_nack(requeue)`. -/
inductive BusOutcome where
  | rejected (requeue : Bool)
  | acked
  | nacked (requeue : Bool)
deriving DecidableEq

/-- What processing one delivery produced: the broker outcome and the parsed
message that was handed to the user callback (`none` when the callback was
never invoked). -/
structure DeliveryResult (M : Type) where
  outcome : BusOutcome
  callbackArg : Option M
deriving DecidableEq

/-- `properties.headers.get("hmac", "")` guarded by
`hasattr(properties, 'headers') and properties.headers`: missing or `None`
headers yield the empty string, as does a missing key. -/
def headersLookup (headers : Option (List (String × String))) (key : String) : String :=
  match headers with
  | Option.none => ""
  | some hs => (hs.lookup key).getD ""

/-- The verified callback produced by `BaseMessageHandler._create_verified_callback`,
composed with `BaseMessageHandler._process_message`, on one delivery. `hmacHex`
stands for `hmac.new(secret_key, body, sha256).hexdigest()` with the handler's
secret already fixed; `parse` stands for `json.loads` (`none` = `JSONDecodeError`);
`callback` is the user callback, `Except.error` meaning it raised. A mismatching
digest or an unparsable body is rejected with `requeue=False` before the callback;
otherwise the callback runs, and the message is acked on normal return or nacked
with `requeue=False` when the callback raises. -/
def processDelivery {M E : Type} (hmacHex : List Nat → String)
    (parse : List Nat → Option M) (callback : M → Except E Unit)
    (headers : Option (List (String × String))) (body : List Nat) : DeliveryResult M :=
  let received := headersLookup headers "hmac"
  let valid := hmacHex body
  if received ≠ valid then
    { outcome := .rejected false, callbackArg := Option.none }
  else
    match parse body with
    | Option.none => { outcome := .rejected false, callbackArg := Option.none }
    | some m =>
      match callback m with
      | .ok _ => { outcome := .acked, callbackArg := some m }
      | .error _ => { outcome := .nacked false, callbackArg := some m }

/-! ## Channel operations of subscribe / start_consumer -/

/-- The broker-channel operations issued by the subscription paths. -/
inductive ChannelOp where
  | queueDeclare (queue : String) (durable : Bool)
  | queueBind (exchange queue routingKey : String)
  | basicConsume (queue : String)
  | basicQos (prefetchCount : Nat)
deriving DecidableEq

/-- The channel operations of `BaseMessageHandler.subscribe(routing_key,
queue_name, callback)` on its success path: declare the durable queue, bind it,
start the consumer. No QoS/prefetch call occurs. -/
def subscribeOps (exchange routingKey queueName : String) : List ChannelOp :=
  [.queueDeclare queueName true,
   .queueBind exchange queueName routingKey,
   .basicConsume queueName]

/-- The channel operations of `AsyncRabbitMQConnection.start_consumer(queue_name,
callback, prefetch_count)`: declare the queue, set QoS to the caller's
`prefetch_count`, start the consumer. -/
def startConsumerOps (queueName : String) (prefetchCount : Nat) : List ChannelOp :=
  [.queueDeclare queueName true,
   .basicQos prefetchCount,
   .basicConsume queueName]

/-- The default of the `prefetch_count` parameter of
`AsyncRabbitMQConnection.start_consumer` (and `start_consumer_task`). -/
def startConsumerPrefetchDefault : Nat := 10

/-! ## registry/service_registry.py -/

/-- One registered service as `start_all_services`/`stop_all_services` see it:
for each lifecycle operation, `none` models a missing or non-callable attribute,
`Except.error` a call that raises, and `Except.ok b` a call returning `b`. -/
structure Service where
  start : Option (Except String Bool)
  stop : Option (Except String Bool)

/-- How `start_all_services`/`stop_all_services` record one entry: a missing
method or a raising call is recorded as `False`, otherwise the returned boolean. -/
def runLifecycle : Option (Except String Bool) → Bool
  | Option.none => false
  | some (.error _) => false
  | some (.ok b) => b

/-- `ServiceRegistry.start_all_services`: snapshots `self.services.items()` (in
registration order) and visits every entry, recording a per-entry boolean. The
returned list is the results dictionary in visit order. -/
def start_all_services (services : List (String × Service)) : List (String × Bool) :=
  services.map fun p => (p.1, runLifecycle p.2.start)

/-- `ServiceRegistry.stop_all_services`: same shape over
`reversed(list(self.services.items()))`. -/
def stop_all_services (services : List (String × Service)) : List (String × Bool) :=
  services.reverse.map fun p => (p.1, runLifecycle p.2.stop)

/-! ## tpm/tpm_message_handler.py

The handler module references `MessageFactory`, `TPMResponseMessage` and
`StateChangeMessage` without importing them. `MessageFactory` and
`StateChangeMessage` exist in `helper/message.py` and are embedded from there;
`TPMResponseMessage` is defined nowhere in the repository, so its envelope is
modelled from the spec: a response message carrying `correlation_id`, `success`,
an optional `result` and an optional `error` (the message id and timestamp that
`BaseMessage` would add are fresh per message and are omitted). -/

/-- The fields of a successfully parsed command message that
`handle_tpm_command` reads: `cmd_message.id`, `.command` and `.args`. -/
structure ParsedCmd where
  id : String
  command : String
  args : List String
deriving DecidableEq

/-- A message published by the handler: either a `TPMResponseMessage`-style
response/error envelope or a `StateChangeMessage` (whose `old_state`/`new_state`
are the `.value` strings and whose `data` is the context dictionary passed to
`emit_state_change`). -/
inductive Envelope where
  | response (correlation_id : String) (success : Bool)
      (result : Option ExecResult) (error : Option String)
  | stateChange (old_state new_state : String) (data : PyDict)
deriving DecidableEq

/-- Everything one call of `handle_tpm_command` did: the state machine afterwards,
the `(routing_key, message)` pairs published in order, the
`script_runner.execute` invocation if any, and the handler's `last_response` /
`last_error` attributes afterwards. -/
structure HandlerResult where
  machine : Machine
  published : List (String × Envelope)
  execCalled : Option (String × List String)
  last_response : Option Envelope
  last_error : Option String
deriving DecidableEq

/-- The dictionary form of an `ExecResult`, as passed for the context of the
COMPLETED/FAILED transitions (the result value is a Python dictionary; keys are
present exactly when the corresponding field is). -/
def ExecResult.toDict (r : ExecResult) : PyDict :=
  [("success", .bool r.success)]
    ++ (match r.output with | some o => [("output", .str o)] | Option.none => [])
    ++ (match r.error with | some e => [("error", .str e)] | Option.none => [])
    ++ (match r.command with | some c => [("command", .str c)] | Option.none => [])
    ++ (match r.args with | some a => [("args", .list a)] | Option.none => [])
    ++ (match r.returncode with | some rc => [("returncode", .int rc)] | Option.none => [])

/-- The `finally` block of `handle_tpm_command`: when the state is not IDLE it
resets the machine and emits a state-change event to IDLE with empty data. -/
def finallyStep (r : HandlerResult) : HandlerResult :=
  if r.machine.state = FSMState.idle then
    r
  else
    { r with
      machine := r.machine.reset,
      published := r.published ++
        [("tpm.state_change",
          Envelope.stateChange r.machine.state.value FSMState.idle.value [])] }

/-- `TPMMessageHandler.handle_tpm_command(message)`. Inputs: the script runner
seen as an oracle `exec` (name, args ↦ outcome of `ScriptRunner.execute`), the
outcome `parsed` of `MessageFactory.create_from_dict(message)` followed by the
attribute reads (`Except.error e` when that raised, with `str(e) = e`), the raw
message's id lookup `message.get("id", "unknown")` as `rawId`, and the handler's
state machine `m0`. The body mirrors the Python control flow, including the
busy path and the `finally` block. -/
def handle_tpm_command (exec : String → List String → ExecOutcome)
    (parsed : Except String ParsedCmd) (rawId : String) (m0 : Machine) : HandlerResult :=
  match parsed with
  | .error e =>
    let ctx : PyDict := [("error", .str e), ("message_id", .str rawId)]
    let m1 := (m0.transition .failed (some ctx)).2
    finallyStep
      { machine := m1,
        published :=
          [("tpm.state_change", .stateChange m0.state.value FSMState.failed.value ctx),
           ("tpm.error", .response rawId false Option.none (some e))],
        execCalled := Option.none,
        last_response := Option.none,
        last_error := some e }
  | .ok c =>
    if m0.state = FSMState.idle then
      let ctx : PyDict := [("command", .str c.command), ("args", .list c.args)]
      let t := m0.transition .processing (some ctx)
      if t.1 then
        let m1 := t.2
        let pub1 : String × Envelope :=
          ("tpm.state_change",
            .stateChange m0.state.value FSMState.processing.value
              [("command", .str c.command)])
        let out := exec c.command c.args
        let r := out.result
        let resp : Envelope := .response c.id r.success (some out.result) r.error
        if r.success then
          let m2 := (m1.transition .completed (some r.toDict)).2
          finallyStep
            { machine := m2,
              published :=
                [pub1,
                 ("tpm.state_change",
                   .stateChange m1.state.value FSMState.completed.value r.toDict),
                 ("tpm.result", resp)],
              execCalled := some (c.command, c.args),
              last_response := some resp,
              last_error := Option.none }
        else
          let m2 := (m1.transition .failed (some r.toDict)).2
          finallyStep
            { machine := m2,
              published :=
                [pub1,
                 ("tpm.state_change",
                   .stateChange m1.state.value FSMState.failed.value r.toDict),
                 ("tpm.error", resp)],
              execCalled := some (c.command, c.args),
              last_response := Option.none,
              last_error := r.error }
      else
        finallyStep
          { machine := m0, published := [], execCalled := Option.none,
            last_response := Option.none, last_error := Option.none }
    else
      let busyMsg := "System busy (current state: " ++ m0.state.value ++ ")"
      finallyStep
        { machine := m0,
          published := [("tpm.error", .response c.id false Option.none (some busyMsg))],
          execCalled := Option.none,
          last_response := Option.none,
          last_error := some busyMsg }

/-! ## Concrete instances used by witnesses and counterexamples -/

/-- Predicate picking out the QoS operation among channel operations. -/
def ChannelOp.isQos : ChannelOp → Bool
  | .basicQos _ => true
  | _ => false

/-- A concrete stand-in digest function that is constant. -/
def hashConst : List Nat → String := fun _ => "abc"

/-- A concrete digest function distinguishing content `[1]` from everything else. -/
def hashTwo : List Nat → String := fun c => if c = [1] then "h1" else "h2"

/-- A filesystem with one readable file at `/s.sh` with content `[1]`. -/
def fsA : FS := fun p => if p = "/s.sh" then FileView.readable [1] else FileView.absent

/-- A filesystem where `/s.sh` is readable with content `[2]`. -/
def fsB : FS := fun p => if p = "/s.sh" then FileView.readable [2] else FileView.absent

/-- A filesystem where `/u.sh` exists but is unreadable. -/
def fsU : FS := fun p => if p = "/u.sh" then FileView.unreadable else FileView.absent

/-- A concrete Python environment: constant digest, every process exits 0 with
output "ok", and a fixed `CalledProcessError` rendering. -/
def envA : PyEnv :=
  { hashFn := hashConst,
    run := fun _ => .completed 0 "ok" "",
    cpeStr := fun _ _ => "called process error" }

/-- A runner state with `/s.sh` registered under name `s` and its stored hash
matching what `hashConst` computes for it. -/
def stGood : RunnerState :=
  { allowed_scripts := [("s", "/s.sh")], script_hashes := [("s", "abc")] }

/-- A runner state with `/s.sh` registered under `s` but a mismatching stored hash. -/
def stBadHash : RunnerState :=
  { allowed_scripts := [("s", "/s.sh")], script_hashes := [("s", "deadbeef")] }

/-- A fresh runner state with nothing registered and no hashes. -/
def emptyRunner : RunnerState := { allowed_scripts := [], script_hashes := [] }

/-- A fresh runner state whose constructor was given the expected hash
`"deadbeef"` for the (yet unregistered) name `s`. -/
def stBadHashInit : RunnerState :=
  { allowed_scripts := [], script_hashes := [("s", "deadbeef")] }

/-- A service with neither `start` nor `stop` callable. -/
def svcMissing : Service := { start := Option.none, stop := Option.none }

/-- A service whose `start` and `stop` raise. -/
def svcRaising : Service :=
  { start := some (.error "boom"), stop := some (.error "boom") }

/-- A service whose `start` and `stop` return `True`. -/
def svcOk : Service := { start := some (.ok true), stop := some (.ok true) }

/-- A concrete three-service registry snapshot. -/
def demoServices : List (String × Service) :=
  [("a", svcMissing), ("b", svcRaising), ("c", svcOk)]

/-- A concrete script-runner oracle for the handler that always succeeds. -/
def execOracle : String → List String → ExecOutcome := fun _ _ =>
  { result := { success := true }, spawned := Option.none }

/-! ## Helper lemmas -/

/-- Lookup distributes over append when the key is absent on the left. -/
theorem lookup_append_of_none {β : Type} (k : String) (l₁ l₂ : List (String × β))
    (h : l₁.lookup k = Option.none) : (l₁ ++ l₂).lookup k = l₂.lookup k := by
  induction l₁ with
  | nil => rfl
  | cons p t ih =>
    obtain ⟨a, b⟩ := p
    cases hk : (k == a) with
    | true => simp [List.lookup, hk] at h
    | false =>
      simp only [List.lookup, hk] at h
      simpa [List.lookup, hk] using ih h

/-! ## Claim theorems -/

/-- C4. The transition relation of `BaseStateMachine` is exactly the table
IDLE→PROCESSING, PROCESSING→COMPLETED, PROCESSING→FAILED, FAILED→IDLE: `transition`
returns `true` and moves to the requested state (replacing the stored context
wholesale) precisely on those pairs, otherwise it returns `false` and leaves state
and context unchanged; COMPLETED has no outgoing transition, and `reset` always
yields IDLE with a cleared context. -/
theorem C4_fsm_transition_table (m : Machine) (s : FSMState) (ctx : Option PyDict) :
    ((m.transition s ctx).1 = true ↔
      (m.state, s) ∈ ([(.idle, .processing), (.processing, .completed),
        (.processing, .failed), (.failed, .idle)] : List (FSMState × FSMState)))
    ∧ ((m.transition s ctx).1 = true →
        (m.transition s ctx).2 = { state := s, current_context := some (ctx.getD []) })
    ∧ ((m.transition s ctx).1 = false → (m.transition s ctx).2 = m)
    ∧ (m.state = .completed → (m.transition s ctx).1 = false)
    ∧ m.reset = { state := .idle, current_context := Option.none } := by
  obtain ⟨st, c⟩ := m
  cases st <;> cases s <;>
    simp [Machine.transition, Machine.reset, transitionsOf]

/-- Witness for C4 at concrete inputs: from IDLE, a transition to PROCESSING
succeeds and commits state and context; from COMPLETED, a transition to IDLE
fails and changes nothing. -/
theorem C4_fsm_transition_table_wit :
    (Machine.transition { state := .idle, current_context := Option.none }
        .processing (some [("command", .str "x")])).2 =
      { state := .processing, current_context := some [("command", .str "x")] }
    ∧ (Machine.transition { state := .completed, current_context := Option.none }
        .idle Option.none).2 =
      { state := .completed, current_context := Option.none } := by
  constructor
  · exact (C4_fsm_transition_table { state := .idle, current_context := Option.none }
      .processing (some [("command", .str "x")])).2.1 (by decide)
  · exact (C4_fsm_transition_table { state := .completed, current_context := Option.none }
      .idle Option.none).2.2.1 (by decide)

/-- C1. For every delivered bus message: a mismatching HMAC header means the
message is rejected without requeue and the callback never runs; a matching HMAC
with an unparsable body is likewise rejected without requeue before the callback;
a verified, well-formed message is handed to the callback and acknowledged when
the callback returns normally; and a callback that raises causes a
negative-acknowledge without requeue. -/
theorem C1_hmac_delivery_gate {M E : Type} (hmacHex : List Nat → String)
    (parse : List Nat → Option M) (callback : M → Except E Unit)
    (headers : Option (List (String × String))) (body : List Nat) (m : M) (e : E) :
    (headersLookup headers "hmac" ≠ hmacHex body →
      processDelivery hmacHex parse callback headers body =
        { outcome := .rejected false, callbackArg := Option.none })
    ∧ (headersLookup headers "hmac" = hmacHex body → parse body = Option.none →
      processDelivery hmacHex parse callback headers body =
        { outcome := .rejected false, callbackArg := Option.none })
    ∧ (headersLookup headers "hmac" = hmacHex body → parse body = some m →
        callback m = .ok () →
      processDelivery hmacHex parse callback headers body =
        { outcome := .acked, callbackArg := some m })
    ∧ (headersLookup headers "hmac" = hmacHex body → parse body = some m →
        callback m = .error e →
      processDelivery hmacHex parse callback headers body =
        { outcome := .nacked false, callbackArg := some m }) := by
  refine ⟨fun h => ?_, fun h hp => ?_, fun h hp hc => ?_, fun h hp hc => ?_⟩
  · simp [processDelivery, h]
  · simp [processDelivery, h, hp]
  · simp [processDelivery, h, hp, hc]
  · simp [processDelivery, h, hp, hc]

/-- Witness for C1: a correctly signed, well-formed message is acknowledged and
reaches the callback; the same message with its headers stripped (so the HMAC
header defaults to the empty string) is rejected without requeue and the callback
never runs. -/
theorem C1_hmac_delivery_gate_wit :
    processDelivery (M := Nat) (E := Unit) (fun _ => "k") (fun _ => some 0)
        (fun _ => Except.ok ()) (some [("hmac", "k")]) [] =
      { outcome := .acked, callbackArg := some 0 }
    ∧ processDelivery (M := Nat) (E := Unit) (fun _ => "k") (fun _ => some 0)
        (fun _ => Except.ok ()) Option.none [] =
      { outcome := .rejected false, callbackArg := Option.none } := by
  constructor
  · exact (C1_hmac_delivery_gate (fun _ => "k") (fun _ => some 0)
      (fun _ => Except.ok ()) (some [("hmac", "k")]) [] 0 ()).2.2.1
      (by decide) rfl rfl
  · exact (C1_hmac_delivery_gate (fun _ => "k") (fun _ => some 0)
      (fun _ => Except.ok ()) Option.none [] 0 ()).1 (by decide)

/-- C2, counterexample. The claim fails as stated: when an expected hash was
pre-supplied to the constructor (here `"deadbeef"` for `s`), `register_script`
succeeds and keeps the supplied hash, and `verify_script_integrity` is already
`false` immediately after registration although the file's bytes are unchanged. -/
theorem C2_verify_after_register_cex :
    (register_script hashConst fsA stBadHashInit "s" "/s.sh").1 = true
    ∧ verify_script_integrity hashConst fsA
        (register_script hashConst fsA stBadHashInit "s" "/s.sh").2 "s" = false := by
  constructor <;> rfl

/-- C2, amended. For every name registered successfully when no expected hash was
pre-supplied and the file was readable, `verify_script_integrity` is `true`
immediately after registration while the file is unchanged; it turns `false` as
soon as the file's content hashes differently from the registration-time content,
or the file becomes unreadable or absent, all without re-registration; and it is
`false` for any name not in the registered-script map. -/
theorem C2_verify_after_register (hashFn : List Nat → String) (fs : FS)
    (st : RunnerState) (name path : String) (c : List Nat)
    (hfresh : st.allowed_scripts.lookup name = Option.none)
    (hnohash : st.script_hashes.lookup name = Option.none)
    (hread : fs path = FileView.readable c) :
    (register_script hashFn fs st name path).1 = true
    ∧ verify_script_integrity hashFn fs
        (register_script hashFn fs st name path).2 name = true
    ∧ (∀ (g : FS) (d : List Nat), g path = FileView.readable d → hashFn d ≠ hashFn c →
        verify_script_integrity hashFn g
          (register_script hashFn fs st name path).2 name = false)
    ∧ (∀ g : FS, g path = FileView.unreadable →
        verify_script_integrity hashFn g
          (register_script hashFn fs st name path).2 name = false)
    ∧ (∀ g : FS, g path = FileView.absent →
        verify_script_integrity hashFn g
          (register_script hashFn fs st name path).2 name = false)
    ∧ (∀ n : String,
        (register_script hashFn fs st name path).2.allowed_scripts.lookup n =
          Option.none →
        verify_script_integrity hashFn fs
          (register_script hashFn fs st name path).2 n = false) := by
  have hreg : register_script hashFn fs st name path =
      (true,
        { allowed_scripts := st.allowed_scripts ++ [(name, path)],
          script_hashes := st.script_hashes ++ [(name, hashFn c)] }) := by
    unfold register_script
    simp only [hfresh, Option.isSome_none, Bool.false_eq_true, if_false]
    rw [hread]
    simp [hnohash, calculate_script_hash, hread]
  have hlookA :
      (st.allowed_scripts ++ [(name, path)]).lookup name = some path := by
    rw [lookup_append_of_none name _ _ hfresh]
    simp [List.lookup]
  have hlookH :
      (st.script_hashes ++ [(name, hashFn c)]).lookup name = some (hashFn c) := by
    rw [lookup_append_of_none name _ _ hnohash]
    simp [List.lookup]
  refine ⟨by rw [hreg], ?_, ?_, ?_, ?_, ?_⟩
  · rw [hreg]
    simp [verify_script_integrity, hlookA, hlookH, calculate_script_hash, hread]
  · intro g d hg hne
    rw [hreg]
    simp [verify_script_integrity, hlookA, hlookH, calculate_script_hash, hg, hne]
  · intro g hg
    rw [hreg]
    simp [verify_script_integrity, hlookA, hlookH, calculate_script_hash, hg]
  · intro g hg
    rw [hreg]
    simp [verify_script_integrity, hlookA, hlookH, calculate_script_hash, hg]
  · intro n hn
    rw [hreg] at hn ⊢
    simp only [verify_script_integrity, hn]

/-- Witness for C2 (amended) at concrete inputs: registering `/s.sh` (content
`[1]`) in an empty runner with the two-valued digest function makes `verify`
`true` on the unchanged filesystem and `false` after the content changes to `[2]`. -/
theorem C2_verify_after_register_wit :
    verify_script_integrity hashTwo fsA
      (register_script hashTwo fsA emptyRunner "s" "/s.sh").2 "s" = true
    ∧ verify_script_integrity hashTwo fsB
      (register_script hashTwo fsA emptyRunner "s" "/s.sh").2 "s" = false := by
  constructor
  · exact (C2_verify_after_register hashTwo fsA emptyRunner "s" "/s.sh" [1]
      rfl rfl rfl).2.1
  · exact (C2_verify_after_register hashTwo fsA emptyRunner "s" "/s.sh" [1]
      rfl rfl rfl).2.2.1 fsB [2] rfl (by decide)

/-- C3. For every unregistered name and any argument list, `execute` returns
exactly `{success: false, error: "Unauthorized script"}` without spawning a
process; for every registered name failing integrity verification, `execute`
returns `{success: false, error: "Script integrity check failed"}` — an error
containing "integrity check failed" — without spawning a process. -/
theorem C3_execute_refusals (env : PyEnv) (fs : FS) (st : RunnerState)
    (name path : String) (args : List String) :
    (st.allowed_scripts.lookup name = Option.none →
      execute env fs st name args =
        { result := { success := false, error := some "Unauthorized script" },
          spawned := Option.none })
    ∧ (st.allowed_scripts.lookup name = some path →
        verify_script_integrity env.hashFn fs st name = false →
        execute env fs st name args =
          { result :=
              { success := false, error := some "Script integrity check failed" },
            spawned := Option.none }
        ∧ strContains "Script integrity check failed" "integrity check failed") := by
  constructor
  · intro h
    simp [execute, h]
  · intro h hv
    refine ⟨?_, "Script ", "", rfl⟩
    simp [execute, h, hv]

/-- Witness for C3: in a runner knowing only `s`, executing the unregistered
name `nope` yields the unauthorized result with no spawn, and executing `s`
whose stored hash mismatches yields the integrity-failure result with no spawn. -/
theorem C3_execute_refusals_wit :
    execute envA fsA stBadHash "nope" [] =
      { result := { success := false, error := some "Unauthorized script" },
        spawned := Option.none }
    ∧ execute envA fsA stBadHash "s" ["x"] =
      { result :=
          { success := false, error := some "Script integrity check failed" },
        spawned := Option.none } := by
  constructor
  · exact (C3_execute_refusals envA fsA stBadHash "nope" "/s.sh" []).1 rfl
  · exact ((C3_execute_refusals envA fsA stBadHash "s" "/s.sh" ["x"]).2 rfl
      (by decide)).1

/-- C6, counterexample. The claim fails as stated: for a registered script that
passes its integrity check, `execute` invokes `subprocess.run` with no timeout
argument at all — the spawn recorded at this concrete input carries
`timeout = none`, so there is no bounded wall-clock timeout (and the code has no
timed-out branch to kill the subprocess). -/
theorem C6_timeout_cex :
    (execute envA fsA stGood "s" []).spawned =
      some { argv := ["/s.sh"], capture_output := true, text := true,
             check := true, timeout := Option.none } := by
  rfl

/-- C6, amended. For every registered script that passes its integrity check,
`execute` spawns the script with `capture_output=True, text=True, check=True` and
no timeout (so no timeout result can arise), and the returned success flag equals
(exit code == 0): a completed run reports `success = (returncode == 0)` and a
spawn that raises reports `success = false`. -/
theorem C6_no_timeout_success_is_exit0 (env : PyEnv) (fs : FS) (st : RunnerState)
    (name path : String) (args : List String) (rc : Int) (out err msg : String)
    (hlook : st.allowed_scripts.lookup name = some path)
    (hver : verify_script_integrity env.hashFn fs st name = true) :
    (execute env fs st name args).spawned =
      some { argv := [path], capture_output := true, text := true,
             check := true, timeout := Option.none }
    ∧ (env.run path = .completed rc out err →
        (execute env fs st name args).result.success = decide (rc = 0))
    ∧ (env.run path = .failed msg →
        (execute env fs st name args).result.success = false) := by
  refine ⟨?_, fun hr => ?_, fun hr => ?_⟩
  · simp only [execute, hlook, hver, if_true]
    cases env.run path with
    | completed rc out err =>
      by_cases h0 : rc = 0 <;> simp [h0]
    | failed msg => simp
  · by_cases h0 : rc = 0 <;> simp [execute, hlook, hver, hr, h0]
  · simp [execute, hlook, hver, hr]

/-- Witness for C6 (amended): the registered, verified script `s` is spawned
without a timeout and its zero exit code yields `success = true`. -/
theorem C6_no_timeout_success_is_exit0_wit :
    (execute envA fsA stGood "s" []).spawned =
      some { argv := ["/s.sh"], capture_output := true, text := true,
             check := true, timeout := Option.none }
    ∧ (execute envA fsA stGood "s" []).result.success = decide ((0 : Int) = 0) := by
  constructor
  · exact (C6_no_timeout_success_is_exit0 envA fsA stGood "s" "/s.sh" [] 0 "ok" ""
      "m" rfl (by decide)).1
  · exact (C6_no_timeout_success_is_exit0 envA fsA stGood "s" "/s.sh" [] 0 "ok" ""
      "m" rfl (by decide)).2.1 rfl

/-- C7, counterexample. The claim fails as stated: the subscription the TPM
handler actually creates (`subscribe` on queue `tpm_worker`, routing key
`tpm.command.#`, exchange `app_events`) issues no prefetch/QoS operation of 1 at
all, and the async connector's `prefetch_count` default is 10, not 1. -/
theorem C7_prefetch_cex :
    ChannelOp.basicQos 1 ∉ subscribeOps "app_events" "tpm.command.#" "tpm_worker"
    ∧ startConsumerPrefetchDefault = 10 := by
  decide

/-- C7, amended. No subscription sets a prefetch/credit limit of 1:
`BaseMessageHandler.subscribe` issues only declare/bind/consume and no QoS
operation whatsoever, while `AsyncRabbitMQConnection.start_consumer` sets the
prefetch to its caller-supplied `prefetch_count`, whose default is 10. -/
theorem C7_no_prefetch_limit (exchange routingKey queueName : String) (n : Nat) :
    (subscribeOps exchange routingKey queueName).all (fun op => !op.isQos) = true
    ∧ startConsumerOps queueName n =
      [.queueDeclare queueName true, .basicQos n, .basicConsume queueName]
    ∧ startConsumerPrefetchDefault = 10 := by
  refine ⟨?_, rfl, rfl⟩
  simp [subscribeOps, ChannelOp.isQos]

/-- C8. `stop_all_services` visits the services in exactly the reverse of the
registration order that `start_all_services` traverses; both record an entry for
every service (no aborted iteration), and an entry whose start/stop method is
missing or raises is recorded as `false`. -/
theorem C8_stop_is_reverse_start (services : List (String × Service)) (sv : Service) :
    (stop_all_services services).map Prod.fst =
      ((start_all_services services).map Prod.fst).reverse
    ∧ (start_all_services services).length = services.length
    ∧ (stop_all_services services).length = services.length
    ∧ ((sv.start = Option.none ∨ ∃ e, sv.start = some (Except.error e)) →
        runLifecycle sv.start = false)
    ∧ ((sv.stop = Option.none ∨ ∃ e, sv.stop = some (Except.error e)) →
        runLifecycle sv.stop = false) := by
  refine ⟨?_, ?_, ?_, ?_, ?_⟩
  · simp [start_all_services, stop_all_services]
  · simp [start_all_services]
  · simp [stop_all_services]
  · rintro (h | ⟨e, h⟩) <;> simp [runLifecycle, h]
  · rintro (h | ⟨e, h⟩) <;> simp [runLifecycle, h]

/-- Witness for C8 at a concrete three-service registry: stopping visits
`c, b, a` — the reverse of starting's `a, b, c` — and the method-less service's
entry is recorded as `false`. -/
theorem C8_stop_is_reverse_start_wit :
    (stop_all_services demoServices).map Prod.fst =
      ((start_all_services demoServices).map Prod.fst).reverse
    ∧ runLifecycle svcMissing.start = false := by
  constructor
  · exact (C8_stop_is_reverse_start demoServices svcMissing).1
  · exact (C8_stop_is_reverse_start demoServices svcMissing).2.2.2.1 (Or.inl rfl)

/-- C9. For every name present in the registered-script map but with no stored
hash, `verify_script_integrity` returns `true`, and `execute` therefore proceeds
to spawn the script with no integrity comparison: the gate fails open. -/
theorem C9_no_hash_fails_open (env : PyEnv) (fs : FS) (st : RunnerState)
    (name path : String) (args : List String)
    (hlook : st.allowed_scripts.lookup name = some path)
    (hnohash : st.script_hashes.lookup name = Option.none) :
    verify_script_integrity env.hashFn fs st name = true
    ∧ (execute env fs st name args).spawned =
      some { argv := [path], capture_output := true, text := true,
             check := true, timeout := Option.none } := by
  have hv : verify_script_integrity env.hashFn fs st name = true := by
    simp [verify_script_integrity, hlook, hnohash]
  refine ⟨hv, ?_⟩
  simp only [execute, hlook, hv, if_true]
  cases env.run path with
  | completed rc out err => by_cases h0 : rc = 0 <;> simp [h0]
  | failed msg => simp

/-- Witness for C9: registering an existing but unreadable file stores no hash;
the registration nevertheless succeeds, verification passes, and execution
spawns the script. -/
theorem C9_no_hash_fails_open_wit :
    (register_script hashConst fsU emptyRunner "s" "/u.sh").1 = true
    ∧ (register_script hashConst fsU emptyRunner "s" "/u.sh").2.script_hashes = []
    ∧ verify_script_integrity hashConst fsU
        (register_script hashConst fsU emptyRunner "s" "/u.sh").2 "s" = true
    ∧ (execute envA fsU
        (register_script hashConst fsU emptyRunner "s" "/u.sh").2 "s" []).spawned =
      some { argv := ["/u.sh"], capture_output := true, text := true,
             check := true, timeout := Option.none } := by
  refine ⟨rfl, rfl, ?_, ?_⟩
  · exact (C9_no_hash_fails_open envA fsU
      (register_script hashConst fsU emptyRunner "s" "/u.sh").2 "s" "/u.sh" []
      rfl rfl).1
  · exact (C9_no_hash_fails_open envA fsU
      (register_script hashConst fsU emptyRunner "s" "/u.sh").2 "s" "/u.sh" []
      rfl rfl).2

/-- C10. For every registered script that passes integrity verification and any
two argument lists, `execute` produces identical outcomes — the same result
dictionary and the same spawned invocation, whose argument vector is the script
path alone — and the returned result carries an empty `args` field: the caller's
arguments never influence what is executed. -/
theorem C10_args_never_influence (env : PyEnv) (fs : FS) (st : RunnerState)
    (name path : String) (a1 a2 : List String)
    (hlook : st.allowed_scripts.lookup name = some path)
    (hver : verify_script_integrity env.hashFn fs st name = true) :
    execute env fs st name a1 = execute env fs st name a2
    ∧ (execute env fs st name a1).spawned =
      some { argv := [path], capture_output := true, text := true,
             check := true, timeout := Option.none }
    ∧ (execute env fs st name a1).result.args = some [] := by
  refine ⟨rfl, ?_, ?_⟩
  · simp only [execute, hlook, hver, if_true]
    cases env.run path with
    | completed rc out err => by_cases h0 : rc = 0 <;> simp [h0]
    | failed msg => simp
  · simp only [execute, hlook, hver, if_true]
    cases env.run path with
    | completed rc out err => by_cases h0 : rc = 0 <;> simp [h0]
    | failed msg => simp

/-- Witness for C10: executing the verified script `s` with `["a"]` and with
`["b", "c"]` gives identical outcomes, spawning `["/s.sh"]` with an empty `args`
field in the result. -/
theorem C10_args_never_influence_wit :
    execute envA fsA stGood "s" ["a"] = execute envA fsA stGood "s" ["b", "c"]
    ∧ (execute envA fsA stGood "s" ["a"]).result.args = some [] := by
  constructor
  · exact (C10_args_never_influence envA fsA stGood "s" "/s.sh" ["a"] ["b", "c"]
      rfl (by decide)).1
  · exact (C10_args_never_influence envA fsA stGood "s" "/s.sh" ["a"] ["b", "c"]
      rfl (by decide)).2.2

/-- C5, counterexample. The claim fails as stated: delivering a valid command to
the handler while its machine is PROCESSING publishes the busy error and runs no
script, but the `finally` block of `handle_tpm_command` then resets the machine —
the state after the call is IDLE, not the PROCESSING state it had before. -/
theorem C5_busy_path_cex :
    (handle_tpm_command execOracle
        (.ok { id := "m1", command := "c", args := [] }) "m1"
        { state := .processing, current_context := some [] }).machine.state =
      FSMState.idle
    ∧ FSMState.idle ≠ FSMState.processing
    ∧ (handle_tpm_command execOracle
        (.ok { id := "m1", command := "c", args := [] }) "m1"
        { state := .processing, current_context := some [] }).execCalled =
      Option.none := by
  refine ⟨rfl, by decide, rfl⟩

/-- C5, amended. For every command delivered while the machine is not IDLE,
`handle_tpm_command` publishes a "System busy" error envelope and executes no
script; however the `finally` block then resets the machine, so the call ends
with state IDLE and a cleared context (also publishing a state-change event to
idle), rather than leaving the prior not-IDLE state in place. -/
theorem C5_busy_path (exec : String → List String → ExecOutcome) (c : ParsedCmd)
    (rawId : String) (m0 : Machine) (hbusy : m0.state ≠ FSMState.idle) :
    (handle_tpm_command exec (.ok c) rawId m0).execCalled = Option.none
    ∧ (handle_tpm_command exec (.ok c) rawId m0).machine =
      { state := .idle, current_context := Option.none }
    ∧ (handle_tpm_command exec (.ok c) rawId m0).published =
      [("tpm.error", .response c.id false Option.none
          (some ("System busy (current state: " ++ m0.state.value ++ ")"))),
       ("tpm.state_change", .stateChange m0.state.value "idle" [])]
    ∧ (handle_tpm_command exec (.ok c) rawId m0).last_error =
      some ("System busy (current state: " ++ m0.state.value ++ ")") := by
  simp [handle_tpm_command, finallyStep, hbusy, Machine.reset, FSMState.value]

/-- Witness for C5 (amended) at a concrete busy handler: a valid command arriving
while the machine is PROCESSING triggers no execution, ends with an IDLE machine,
and publishes exactly the busy error followed by the state-change to idle. -/
theorem C5_busy_path_wit :
    (handle_tpm_command execOracle
        (.ok { id := "m2", command := "c", args := [] }) "m2"
        { state := .processing, current_context := Option.none }).execCalled =
      Option.none
    ∧ (handle_tpm_command execOracle
        (.ok { id := "m2", command := "c", args := [] }) "m2"
        { state := .processing, current_context := Option.none }).published =
      [("tpm.error", .response "m2" false Option.none
          (some "System busy (current state: processing)")),
       ("tpm.state_change", .stateChange "processing" "idle" [])] := by
  constructor
  · exact (C5_busy_path execOracle { id := "m2", command := "c", args := [] }
      "m2" { state := .processing, current_context := Option.none }
      (by decide)).1
  · exact (C5_busy_path execOracle { id := "m2", command := "c", args := [] }
      "m2" { state := .processing, current_context := Option.none }
      (by decide)).2.2.1

end SelfHostedIAM
